import Mathlib

/-!
Shallow embedding of `twitch-recorder.py`: the per-channel status poll
(`check_user`), the supervisor cycle (`check` / `loop_check`), the repair
step (`process_recorded_file` / `ffmpeg_copy_and_fix_errors`), filename
sanitization, the minimum-interval adjustment in `run`, the channel-list
loading and the bounded worker pool of `main`.

External effects (the HTTP request, the file lock, subprocess launches,
the clock) enter as explicit parameters describing the outcome of each
effectful call. Behaviour of the Python runtime and of the `requests`
library is modelled where the code depends on it, notably the truthiness
of `requests.Response` and of lists, `str.isalnum`, `str.rstrip`, and
string concatenation with `None`.
-/

/-- Enum `TwitchResponseStatus` (twitch-recorder.py, lines 21-26). -/
inductive TwitchResponseStatus where
  | ONLINE
  | OFFLINE
  | NOT_FOUND
  | UNAUTHORIZED
  | ERROR
deriving DecidableEq

/-- One entry of the `data` array of the streams JSON response; `title` is
what `channel.get("title")` returns at line 171: `none` when the key is
absent (Python `None`). -/
structure StreamEntry where
  title : Option String
deriving DecidableEq

/-- Parsed JSON body of a successful status response: an object with a
`data` array (line 130, `info = r.json()`). -/
structure StreamsInfo where
  data : List StreamEntry
deriving DecidableEq

/-- Outcome of the HTTP GET at line 128 together with `raise_for_status`
at line 129: a 2xx response whose JSON parsed to `info` (`none` models a
JSON `null`, the `info is None` test at line 131); or a
`RequestException` carrying a response with the given status code
(`raise_for_status` raises exactly for codes 400-599); or a
`RequestException` with no attached response (timeout, connection
error). -/
inductive RequestOutcome where
  | success (info : Option StreamsInfo)
  | httpError (code : Nat)
  | noResponse
deriving DecidableEq

/-- Truthiness of a `requests.Response`: `Response.__bool__` returns
`self.ok`, which is true exactly when `status_code < 400`. The guard
`if e.response:` at line 136 evaluates this truthiness, not
`is not None`. -/
def responseTruthy (code : Nat) : Bool := decide (code < 400)

/-- `TwitchRecorder.check_user` (lines 123-141). `status` is initialized
to `ERROR` (line 125); on a successful GET a null body or empty `data`
gives `OFFLINE`, non-empty `data` gives `ONLINE`, with the parsed `info`
returned alongside (lines 130-134, 141); on a `RequestException` the
401/404 reassignments (lines 137-140) run only under `if e.response:`
(line 136), i.e. only when the attached response is truthy; the two `if`
statements there are not chained, so a 404 test runs after the 401 one. -/
def check_user (req : RequestOutcome) : TwitchResponseStatus × Option StreamsInfo :=
  match req with
  | .success none => (.OFFLINE, none)
  | .success (some i) =>
      if i.data.isEmpty then (.OFFLINE, some i) else (.ONLINE, some i)
  | .httpError code =>
      if responseTruthy code then
        let s1 := if code = 401 then TwitchResponseStatus.UNAUTHORIZED else TwitchResponseStatus.ERROR
        let s2 := if code = 404 then TwitchResponseStatus.NOT_FOUND else s1
        (s2, none)
      else (.ERROR, none)
  | .noResponse => (.ERROR, none)

/-- Python `str.isalnum` on one character, modelled for code points up to
U+00FF (ASCII plus Latin-1): the ASCII digits and letters, the Latin-1
characters Python counts as alphanumeric (U+00AA, U+00B2, U+00B3, U+00B5,
U+00B9, U+00BA, U+00BC, U+00BD, U+00BE) and the Latin-1 letter blocks
U+00C0-U+00D6, U+00D8-U+00F6, U+00F8-U+00FF. Code points above U+00FF are
not modelled and map to `false`; real Python accepts further
alphanumerics there, which only adds more characters outside the ASCII
set of the spec. -/
def pyIsAlnum (c : Char) : Bool :=
  decide ((48 ≤ c.toNat ∧ c.toNat ≤ 57) ∨ (65 ≤ c.toNat ∧ c.toNat ≤ 90) ∨
    (97 ≤ c.toNat ∧ c.toNat ≤ 122) ∨ c.toNat = 0xAA ∨ c.toNat = 0xB2 ∨
    c.toNat = 0xB3 ∨ c.toNat = 0xB5 ∨ c.toNat = 0xB9 ∨ c.toNat = 0xBA ∨
    c.toNat = 0xBC ∨ c.toNat = 0xBD ∨ c.toNat = 0xBE ∨
    (0xC0 ≤ c.toNat ∧ c.toNat ≤ 0xD6) ∨ (0xD8 ≤ c.toNat ∧ c.toNat ≤ 0xF6) ∨
    (0xF8 ≤ c.toNat ∧ c.toNat ≤ 0xFF))

/-- Filter of line 174: a character is kept when
`x.isalnum() or x in [" ", "-", "_", "."]`. -/
def keepChar (c : Char) : Bool :=
  pyIsAlnum c || decide (c = ' ' ∨ c = '-' ∨ c = '_' ∨ c = '.')

/-- Line 174: `filename = "".join(x for x in filename if x.isalnum() or x in [" ", "-", "_", "."])`. -/
def sanitize (s : String) : String := String.mk (s.toList.filter keepChar)

/-- Lines 170-171: `self.username + " - " + now.strftime("%Y-%m-%d %Hh%Mm%Ss") + " - " + channel.get("title") + ".mp4"`,
for the case where the title is present. -/
def composeFilename (username now title : String) : String :=
  username ++ " - " ++ now ++ " - " ++ title ++ ".mp4"

/-- Character set the spec claims for sanitized filenames:
{A-Z, a-z, 0-9, space, hyphen, underscore, period}. -/
def claimedAllowed (c : Char) : Bool :=
  decide ((48 ≤ c.toNat ∧ c.toNat ≤ 57) ∨ (65 ≤ c.toNat ∧ c.toNat ≤ 90) ∨
    (97 ≤ c.toNat ∧ c.toNat ≤ 122) ∨ c = ' ' ∨ c = '-' ∨ c = '_' ∨ c = '.')

/-- Python exceptions that can escape the body of `check`. `typeError`:
concatenating `None` into a string (line 171) or subscripting `None`
(line 168); `attributeError`: calling `.get` on `None` (line 171);
`requestError`: `fetch_access_token` (lines 55-64) raised, e.g. the
token POST failed or returned an error status. -/
inductive PyErr where
  | typeError
  | attributeError
  | requestError
deriving DecidableEq

/-- Environment of one `check` cycle: the outcome of each external call
it can make. `lockAvailable` is whether the `filelock.FileLock`
acquisition at line 150 succeeds within its 0.05s timeout;
`tokenFetchOk` is whether `TwitchRecorder.fetch_access_token` returns
without raising; `now` is `datetime.datetime.now().strftime("%Y-%m-%d %Hh%Mm%Ss")`;
`fileExists` is the `os.path.exists(recorded_filename)` test at line 188
after the streamlink child exits. -/
structure CheckEnv where
  lockAvailable : Bool
  req : RequestOutcome
  tokenFetchOk : Bool
  now : String
  fileExists : Bool
deriving DecidableEq

/-- Observable trace of one `check` call: which effects it performed and
whether an exception escaped it. `sleeps` lists the arguments of the
`time.sleep` calls made inside `check` itself, in order;
`recorderLaunched` is whether the streamlink subprocess was started
(line 181); `processedFile` is whether `process_recorded_file` was
invoked from `check` (line 189); `raised` is the exception that escaped
`check`, if any (the `except` at line 194 swallows only
`filelock.Timeout`). -/
structure CheckResult where
  lockAttempted : Bool
  polled : Bool
  sleeps : List Nat
  tokenRefreshAttempted : Bool
  filename : Option String
  recorderLaunched : Bool
  processedFile : Bool
  raised : Option PyErr
deriving DecidableEq

/-- The `ONLINE` branch of `check` (lines 165-193). `channels = info["data"]`
raises a `TypeError` if `info` is `None`; `channel = next(iter(channels), None)`
is the head of the list or `None`, and `channel.get("title")` on `None`
raises an `AttributeError`; concatenating a `None` title into the
filename string raises a `TypeError`. With well-formed metadata the
sanitized filename is composed, streamlink is run, and the recorded file
is processed when it exists. -/
def online_branch (info : Option StreamsInfo) (now username : String) (fileExists : Bool) : CheckResult :=
  match info with
  | none => ⟨true, true, [], false, none, false, false, some .typeError⟩
  | some ⟨[]⟩ => ⟨true, true, [], false, none, false, false, some .attributeError⟩
  | some ⟨⟨none⟩ :: _⟩ => ⟨true, true, [], false, none, false, false, some .typeError⟩
  | some ⟨⟨some t⟩ :: _⟩ =>
      ⟨true, true, [], false, some (sanitize (composeFilename username now t)), true,
        fileExists, none⟩

/-- Dispatch on the polled status inside the lock (lines 152-193): the
`if`/`elif` chain of `check`. `NOT_FOUND` logs and sleeps `refresh`;
`ERROR` logs and sleeps 300; `OFFLINE` logs and sleeps `refresh`;
`UNAUTHORIZED` calls `fetch_access_token` and performs no sleep (its
failure escapes `check`); `ONLINE` runs `online_branch`. -/
def check_dispatch (s : TwitchResponseStatus) (info : Option StreamsInfo)
    (tokenFetchOk : Bool) (now username : String) (fileExists : Bool)
    (refresh : Nat) : CheckResult :=
  match s with
  | .NOT_FOUND => ⟨true, true, [refresh], false, none, false, false, none⟩
  | .ERROR => ⟨true, true, [300], false, none, false, false, none⟩
  | .OFFLINE => ⟨true, true, [refresh], false, none, false, false, none⟩
  | .UNAUTHORIZED =>
      ⟨true, true, [], true, none, false, false,
        if tokenFetchOk then none else some .requestError⟩
  | .ONLINE => online_branch info now username fileExists

/-- `TwitchRecorder.check` (lines 148-195): attempt the file lock first;
on `filelock.Timeout` return silently (lines 194-195, nothing else ran);
otherwise poll `check_user` and dispatch on the status. -/
def check (env : CheckEnv) (refresh : Nat) (username : String) : CheckResult :=
  if env.lockAvailable then
    check_dispatch (check_user env.req).1 (check_user env.req).2
      env.tokenFetchOk env.now username env.fileExists refresh
  else
    ⟨true, false, [], false, none, false, false, none⟩

/-- Total time slept inside one `check` call. -/
def sumSleeps (r : CheckResult) : Nat := r.sleeps.sum

/-- Time from one `check_user` poll to the next in `loop_check`
(lines 143-146): the sleeps performed inside `check` after the poll,
plus the unconditional `time.sleep(self.refresh)` of the loop body.
Meaningful for cycles from which no exception escapes. -/
def timeToNextPoll (env : CheckEnv) (refresh : Nat) (username : String) : Nat :=
  sumSleeps (check env refresh username) + refresh

/-- `loop_check` is `while True: check(...); sleep(refresh)`; the loop
has no break, so it terminates exactly when an exception escapes
`check` (only `filelock.Timeout` is caught inside `check`). -/
def loop_check_terminates_on (env : CheckEnv) (refresh : Nat) (username : String) : Bool :=
  ((check env refresh username).raised).isSome

/-- Next-wait column of the state-machine table in spec section 4.3,
written from the spec for comparison with `check_dispatch`: OFFLINE and
NOT_FOUND wait one poll interval, TRANSIENT_ERROR (code `ERROR`) waits
the fixed 300-unit cooldown, UNAUTHORIZED retries immediately with no
sleep, ONLINE prescribes no sleep. -/
def specNextWait (s : TwitchResponseStatus) (refresh : Nat) : List Nat :=
  match s with
  | .OFFLINE => [refresh]
  | .ERROR => [300]
  | .NOT_FOUND => [refresh]
  | .UNAUTHORIZED => []
  | .ONLINE => []

/-- Byte content of a file, as a list of byte values. -/
abbrev ByteContent := List Nat

/-- A flat model of the directory contents relevant to one recorder: an
association list from path to byte content. -/
abbrev Files := List (String × ByteContent)

/-- Content of the file at `p`, if it exists. -/
def lookupFile (fs : Files) (p : String) : Option ByteContent :=
  match fs with
  | [] => none
  | (q, c) :: rest => if q = p then some c else lookupFile rest p

/-- Write (create or overwrite) the file at `p`. -/
def setFile (fs : Files) (p : String) (c : ByteContent) : Files :=
  match fs with
  | [] => [(p, c)]
  | (q, d) :: rest => if q = p then (p, c) :: rest else (q, d) :: setFile rest p c

/-- Delete the file at `p` if present (`os.remove` of an absent file
raises, but that exception is caught where this model is used and the
state is the same). -/
def removeFile (fs : Files) (p : String) : Files :=
  match fs with
  | [] => []
  | (q, d) :: rest => if q = p then removeFile rest p else (q, d) :: removeFile rest p

/-- Outcome of the external ffmpeg invocation at lines 116-118:
`launchOk` is whether `subprocess.call` returned (with any exit code)
rather than raising a process-launch failure such as
`FileNotFoundError`; `output` is what the launched process wrote to
`processed_filename` (`none` when it wrote nothing). -/
structure RepairEnv where
  launchOk : Bool
  output : Option ByteContent
deriving DecidableEq

/-- Write of the external process output, when there is one. -/
def writeOutput (fs : Files) (p : String) (c : Option ByteContent) : Files :=
  match c with
  | none => fs
  | some b => setFile fs p b

/-- `TwitchRecorder.ffmpeg_copy_and_fix_errors` (lines 114-121): inside a
`try`, `subprocess.call` runs ffmpeg (which writes the processed file),
then `os.remove(recorded_filename)` deletes the input; any exception is
caught and logged. If the call raises a process-launch failure, the
child never ran and `os.remove` is never reached, so the file state is
unchanged. -/
def ffmpeg_copy_and_fix_errors (env : RepairEnv) (recorded processed : String)
    (fs : Files) : Files :=
  if env.launchOk then removeFile (writeOutput fs processed env.output) recorded
  else fs

/-- `TwitchRecorder.process_recorded_file` (lines 106-112): with
`disable_ffmpeg`, `shutil.move` the recorded file to the processed path;
otherwise repair via `ffmpeg_copy_and_fix_errors`. The move is modelled
only for an existing source, the one way it is reached (line 188 guards
on existence). -/
def process_recorded_file (disableFfmpeg : Bool) (env : RepairEnv)
    (recorded processed : String) (fs : Files) : Files :=
  if disableFfmpeg then
    match lookupFile fs recorded with
    | some c => setFile (removeFile fs recorded) processed c
    | none => fs
  else
    ffmpeg_copy_and_fix_errors env recorded processed fs

/-- Refresh-interval adjustment of `TwitchRecorder.run` (lines 79-83),
executed before any `check`/`loop_check` call (lines 97-104): an
interval below 15 is raised to exactly 15, otherwise kept. The result is
the poll interval in effect when polling begins. -/
def run_poll_interval (refresh : Nat) : Nat :=
  if refresh < 15 then 15 else refresh

/-- Python whitespace stripped by `str.rstrip()` with no argument
(ASCII part: space, tab, newline, carriage return, vertical tab, form
feed). -/
def pyIsSpace (c : Char) : Bool :=
  decide (c.toNat = 32 ∨ c.toNat = 9 ∨ c.toNat = 10 ∨ c.toNat = 13 ∨
    c.toNat = 11 ∨ c.toNat = 12)

/-- Python `line.rstrip()`: remove trailing whitespace. -/
def pyRstrip (s : String) : String :=
  String.mk ((s.toList.reverse.dropWhile pyIsSpace).reverse)

/-- Channel-list loading of `main` (lines 247-248):
`[line.rstrip() for line in f if line.rstrip() is not None and len(line.rstrip()) > 1]`.
`line.rstrip()` is never `None`, so a line is kept exactly when its
stripped form is longer than one character; the kept element is the
stripped form, so mapping then filtering on length is the same
comprehension. -/
def load_usernames (lines : List String) : List String :=
  (lines.map pyRstrip).filter (fun u => decide (1 < u.length))

/-- Worker cap of the multi-target scheduler: `num_workers = 4`
(line 234), also the `max_workers` of the `ThreadPoolExecutor`
(line 236). -/
def numWorkers : Nat := 4

/-- State of the multi-target scheduler of `main` (lines 236-252),
counting the futures in `list_of_futures` by phase: `queued` futures are
submitted to the pool but not started, `running` ones occupy a worker
thread, `doneInList` ones are completed but not yet removed by the drain
loop. A channel unit is in flight while it is queued or running. -/
structure SchedState where
  queued : Nat
  running : Nat
  doneInList : Nat
deriving DecidableEq

/-- Number of in-flight (submitted and not yet completed) channel
units. -/
def inFlight (s : SchedState) : Nat := s.queued + s.running

/-- Length of `list_of_futures`. -/
def listLen (s : SchedState) : Nat := s.queued + s.running + s.doneInList

/-- Events of the scheduler with a channel list of size `k`. `start`: a
pool worker picks up a queued unit (the `ThreadPoolExecutor` runs at
most `numWorkers` at once); `complete`: a running unit finishes;
`drain`: the inner `while len(list_of_futures) > num_workers` loop
(lines 240-242) removes one completed future via `as_completed`;
`submit`: the drain guard is false (`len(list_of_futures) <= num_workers`),
so `main` reloads the list and submits one unit per channel
(lines 245-252). -/
inductive SchedStep (k : Nat) : SchedState → SchedState → Prop where
  | start (q r d : Nat) : 0 < q → r < numWorkers →
      SchedStep k ⟨q, r, d⟩ ⟨q - 1, r + 1, d⟩
  | complete (q r d : Nat) : 0 < r →
      SchedStep k ⟨q, r, d⟩ ⟨q, r - 1, d + 1⟩
  | drain (q r d : Nat) : numWorkers < q + r + d → 0 < d →
      SchedStep k ⟨q, r, d⟩ ⟨q, r, d - 1⟩
  | submit (q r d : Nat) : q + r + d ≤ numWorkers →
      SchedStep k ⟨q, r, d⟩ ⟨q + k, r, d⟩

/-- Scheduler states reachable from the initial empty future list. -/
inductive SchedReach (k : Nat) : SchedState → Prop where
  | init : SchedReach k ⟨0, 0, 0⟩
  | step {s t : SchedState} : SchedReach k s → SchedStep k s t → SchedReach k t

/-- Every branch of the status dispatch records that the lock was
attempted: the `with FileLock` of line 150 encloses all of them. -/
theorem dispatch_lockAttempted (s : TwitchResponseStatus) (info : Option StreamsInfo)
    (tok : Bool) (now u : String) (fe : Bool) (r : Nat) :
    (check_dispatch s info tok now u fe r).lockAttempted = true := by
  cases s <;> rcases info with _ | ⟨_ | ⟨⟨_ | t⟩, rest⟩⟩ <;>
    simp [check_dispatch, online_branch]

/-- An ONLINE dispatch from which no exception escaped launched the
recorder. -/
theorem dispatch_online_launch (info : Option StreamsInfo)
    (tok : Bool) (now u : String) (fe : Bool) (r : Nat) :
    (check_dispatch TwitchResponseStatus.ONLINE info tok now u fe r).raised = none →
    (check_dispatch TwitchResponseStatus.ONLINE info tok now u fe r).recorderLaunched = true := by
  rcases info with _ | ⟨_ | ⟨⟨_ | t⟩, rest⟩⟩ <;> simp [check_dispatch, online_branch]

/-- No outcome of the status request makes `check_user` return
`UNAUTHORIZED`: the reassignment at line 138 sits under `if e.response:`
(line 136), which is false for every response `raise_for_status` raises
about, and inside the truthy branch a 401 code would contradict
truthiness (401 is not below 400). -/
theorem check_user_never_unauthorized (req : RequestOutcome) :
    (check_user req).1 ≠ TwitchResponseStatus.UNAUTHORIZED := by
  rcases req with info | code | _
  · rcases info with _ | i
    · simp [check_user]
    · by_cases h : i.data.isEmpty <;> simp [check_user, h]
  · by_cases h4 : code < 400
    · have htr : responseTruthy code = true := by simp [responseTruthy, h4]
      have h401 : code ≠ 401 := by omega
      have h404 : code ≠ 404 := by omega
      simp [check_user, htr, h401, h404]
    · have htr : responseTruthy code = false := by
        simp [responseTruthy]; omega
      simp [check_user, htr]
  · simp [check_user]

/-- C1 (counterexample): the UNAUTHORIZED row fails on the code. At the
poll outcome the spec's Scenario C describes — the status query returns
HTTP 401 — `check_user` does not return `UNAUTHORIZED` (the truthiness
bug of line 136 leaves `ERROR`, whose prescribed wait is the 300-second
cooldown); and even a cycle dispatched at status `UNAUTHORIZED` reaches
the next poll only after the 15-second loop sleep of `loop_check`, not
immediately. -/
theorem unauthorized_row_dead_and_retry_delayed :
    (check_user (RequestOutcome.httpError 401)).1 ≠ TwitchResponseStatus.UNAUTHORIZED ∧
    sumSleeps (check_dispatch TwitchResponseStatus.UNAUTHORIZED none true ("t") ("alice")
      false 15) + 15 ≠ 0 := by
  decide

/-- C1 (amended): for every `TwitchResponseStatus` value the dispatch of
`check` performs exactly the in-`check` next wait of the spec table —
OFFLINE sleeps the poll interval, ERROR (the code's TRANSIENT_ERROR)
sleeps the fixed 300-second cooldown, NOT_FOUND sleeps the poll
interval, UNAUTHORIZED sleeps nothing — and the token refresh is
requested exactly on UNAUTHORIZED; but the re-poll after an
UNAUTHORIZED cycle is not immediate — the next poll comes exactly one
full loop interval later (`loop_check` line 146 sleeps unconditionally,
and the branch itself does not re-poll) — and no poll outcome can
actually produce `UNAUTHORIZED`, so the row is dead code. -/
theorem check_dispatch_table_and_unauthorized_delay :
    ∀ (s : TwitchResponseStatus) (info : Option StreamsInfo) (tok : Bool)
      (now u : String) (fe : Bool) (r : Nat) (req : RequestOutcome),
      (check_dispatch s info tok now u fe r).sleeps = specNextWait s r ∧
      ((check_dispatch s info tok now u fe r).tokenRefreshAttempted = true ↔
        s = TwitchResponseStatus.UNAUTHORIZED) ∧
      sumSleeps (check_dispatch TwitchResponseStatus.UNAUTHORIZED info tok now u fe r) + r
        = r ∧
      (check_user req).1 ≠ TwitchResponseStatus.UNAUTHORIZED := by
  intro s info tok now u fe r req
  refine ⟨?_, ?_, ?_, check_user_never_unauthorized req⟩
  · cases s <;> rcases info with _ | ⟨_ | ⟨⟨_ | t⟩, rest⟩⟩ <;>
      simp [check_dispatch, online_branch, specNextWait]
  · cases s <;> rcases info with _ | ⟨_ | ⟨⟨_ | t⟩, rest⟩⟩ <;>
      simp [check_dispatch, online_branch]
  · simp [check_dispatch, sumSleeps]

/-- Witness for `check_dispatch_table_and_unauthorized_delay` at the
OFFLINE row with a 15-second interval. -/
theorem check_dispatch_table_witness :
    (check_dispatch TwitchResponseStatus.OFFLINE none true ("t") ("alice") false 15).sleeps =
      specNextWait TwitchResponseStatus.OFFLINE 15 :=
  (check_dispatch_table_and_unauthorized_delay TwitchResponseStatus.OFFLINE none true ("t")
    ("alice") false 15 RequestOutcome.noResponse).1

/-- C2 (code bug): `bool(e.response)` is `ok`, false for every response
with status 400 or above, so the 401/404 reassignments of
`check_user` never execute: HTTP 401 and HTTP 404 both come back as
`ERROR`, not `UNAUTHORIZED` / `NOT_FOUND`. -/
theorem check_user_http_401_404_yield_transient_error :
    check_user (RequestOutcome.httpError 401) = (TwitchResponseStatus.ERROR, none) ∧
    check_user (RequestOutcome.httpError 404) = (TwitchResponseStatus.ERROR, none) := by
  decide

/-- Poll environment of an offline channel: lock free, GET succeeds with
an empty `data` array. -/
def offlineEnv : CheckEnv :=
  ⟨true, RequestOutcome.success (some ⟨[]⟩), true, "2024-01-02 03h04m05s", false⟩

/-- C3 (counterexample): on an OFFLINE poll outcome the lock is still
attempted — acquisition is not reserved for ONLINE cycles. -/
theorem lock_attempted_on_offline_poll :
    (check offlineEnv 15 ("alice")).lockAttempted = true ∧
    (check_user offlineEnv.req).1 ≠ TwitchResponseStatus.ONLINE := by
  decide

/-- C3 (amended): the per-channel lock is attempted at the start of every
check cycle, before the status poll; on lock-busy the whole cycle
(including the poll) is a silent no-op — no poll, no sleep, no recording,
no error — and the next poll comes one loop interval later; on
acquisition, if the poll returns ONLINE and no exception escapes, the
recorder is launched. -/
theorem lock_guards_whole_cycle :
    ∀ (env : CheckEnv) (r : Nat) (u : String),
      (check env r u).lockAttempted = true ∧
      (env.lockAvailable = false →
        (check env r u).polled = false ∧ (check env r u).raised = none ∧
        (check env r u).sleeps = [] ∧ (check env r u).recorderLaunched = false ∧
        timeToNextPoll env r u = r) ∧
      (env.lockAvailable = true →
        (check_user env.req).1 = TwitchResponseStatus.ONLINE →
        (check env r u).raised = none →
        (check env r u).recorderLaunched = true) := by
  intro env r u
  cases h : env.lockAvailable with
  | false =>
      have hc : check env r u = ⟨true, false, [], false, none, false, false, none⟩ := by
        simp [check, h]
      refine ⟨by simp [hc], fun _ => ?_, by simp [h]⟩
      simp [hc, timeToNextPoll, sumSleeps]
  | true =>
      have hc : check env r u =
          check_dispatch (check_user env.req).1 (check_user env.req).2
            env.tokenFetchOk env.now u env.fileExists r := by
        simp [check, h]
      refine ⟨?_, by simp [h], fun _ hon hra => ?_⟩
      · rw [hc]; exact dispatch_lockAttempted ..
      · rw [hc] at hra ⊢
        rw [hon] at hra ⊢
        exact dispatch_online_launch _ _ _ _ _ _ hra

/-- Witness for `lock_guards_whole_cycle`: with the lock busy, the cycle
does not even poll. -/
theorem lock_guards_whole_cycle_witness :
    (check ⟨false, RequestOutcome.noResponse, true, "t", false⟩ 15 ("alice")).polled = false :=
  ((lock_guards_whole_cycle ⟨false, RequestOutcome.noResponse, true, "t", false⟩ 15 ("alice")).2.1 rfl).1

/-- Poll environment whose ONLINE metadata is malformed: the stream
entry has no `title` key, so `channel.get("title")` is `None`. -/
def malformedOnlineEnv : CheckEnv :=
  ⟨true, RequestOutcome.success (some ⟨[⟨none⟩]⟩), true, "2024-01-02 03h04m05s", false⟩

/-- C4 (code bug): an ONLINE poll whose first entry lacks a title makes
the filename concatenation of line 171 raise a `TypeError`; `check`
catches only `filelock.Timeout`, so the exception escapes and the
`while True` loop of `loop_check` terminates. -/
theorem malformed_online_title_crashes_loop :
    (check malformedOnlineEnv 15 ("alice")).raised = some PyErr.typeError ∧
    loop_check_terminates_on malformedOnlineEnv 15 ("alice") = true := by
  decide

/-- C5: the repair step deletes the recorded input only after
`subprocess.call` returned; on a process-launch failure nothing ran, so
the whole file state — in particular the recorded file, byte for byte —
is unchanged, and a recorded file can only disappear when the launch
succeeded (or it was absent to begin with). -/
theorem repair_deletes_only_on_successful_launch :
    ∀ (env : RepairEnv) (recorded processed : String) (fs : Files),
      (env.launchOk = false → ffmpeg_copy_and_fix_errors env recorded processed fs = fs) ∧
      (lookupFile (ffmpeg_copy_and_fix_errors env recorded processed fs) recorded = none →
        env.launchOk = true ∨ lookupFile fs recorded = none) := by
  intro env recorded processed fs
  cases h : env.launchOk with
  | false =>
      have hfix : ffmpeg_copy_and_fix_errors env recorded processed fs = fs := by
        simp [ffmpeg_copy_and_fix_errors, h]
      exact ⟨fun _ => hfix, fun hdel => Or.inr (hfix ▸ hdel)⟩
  | true => exact ⟨by simp [h], fun _ => Or.inl rfl⟩

/-- Witness for `repair_deletes_only_on_successful_launch`: a concrete
launch failure leaves the single recorded file exactly as it was. -/
theorem repair_launch_failure_preserves_file :
    ffmpeg_copy_and_fix_errors ⟨false, none⟩ ("rec.mp4") ("proc.mp4")
      [(("rec.mp4"), [1, 2, 3])] = [(("rec.mp4"), [1, 2, 3])] :=
  (repair_deletes_only_on_successful_launch ⟨false, none⟩ ("rec.mp4") ("proc.mp4")
    [(("rec.mp4"), [1, 2, 3])]).1 rfl

/-- C6 (counterexample): with stream title the single letter é (U+00E9),
the sanitized filename keeps é, a character outside
{A-Z, a-z, 0-9, space, hyphen, underscore, period}: Python `isalnum`
accepts every Unicode alphanumeric, not only ASCII. -/
theorem sanitize_keeps_latin1_letter :
    claimedAllowed (Char.ofNat 0xE9) = false ∧
    Char.ofNat 0xE9 ∈
      (sanitize (composeFilename ("bob") ("2024-01-02 03h04m05s")
        (String.mk [Char.ofNat 0xE9]))).toList := by
  decide

/-- C6 (amended): every character of a sanitized filename passes the
line-174 filter — alphanumeric in Python's Unicode sense or one of
space, hyphen, underscore, period (on ASCII input this is exactly the
claimed set) — and scenario B is exact: channel "bob" with title
"Ranked Play!" at 2024-01-02 03:04:05 yields
"bob - 2024-01-02 03h04m05s - Ranked Play.mp4", exclamation point
stripped. -/
theorem sanitize_charset_and_scenario_b :
    (∀ (u now t : String) (c : Char),
      c ∈ (sanitize (composeFilename u now t)).toList → keepChar c = true) ∧
    sanitize (composeFilename ("bob") ("2024-01-02 03h04m05s") ("Ranked Play!")) =
      "bob - 2024-01-02 03h04m05s - Ranked Play.mp4" := by
  constructor
  · intro u now t c hc
    have hl : (sanitize (composeFilename u now t)).toList =
        (composeFilename u now t).toList.filter keepChar := rfl
    rw [hl] at hc
    exact (List.mem_filter.mp hc).2
  · decide

/-- Witness for `sanitize_charset_and_scenario_b` at a concrete kept
character of the scenario filename. -/
theorem sanitize_charset_witness : keepChar ('b') = true :=
  (sanitize_charset_and_scenario_b).1 ("bob") ("2024-01-02 03h04m05s") ("Ranked Play!")
    ('b') (by decide)

/-- C7 (counterexample): with the 15-second interval an OFFLINE cycle
puts the next poll 30 seconds away — the sleep of the OFFLINE branch
plus the unconditional loop sleep — not 15. -/
theorem offline_cycle_waits_thirty_not_fifteen :
    timeToNextPoll offlineEnv 15 ("alice") = 30 ∧
    timeToNextPoll offlineEnv 15 ("alice") ≠ 15 := by
  decide

/-- C7 (amended): an OFFLINE poll in the continuous loop schedules the
next poll exactly two configured intervals later (`check` sleeps one
interval in its OFFLINE branch, `loop_check` another after `check`
returns), and the cycle creates no file: no filename is composed, no
recorder is launched, nothing is processed. -/
theorem offline_cycle_waits_two_intervals :
    ∀ (r : Nat) (u now : String) (tok fe : Bool),
      timeToNextPoll ⟨true, RequestOutcome.success (some ⟨[]⟩), tok, now, fe⟩ r u = 2 * r ∧
      (check ⟨true, RequestOutcome.success (some ⟨[]⟩), tok, now, fe⟩ r u).filename = none ∧
      (check ⟨true, RequestOutcome.success (some ⟨[]⟩), tok, now, fe⟩ r u).recorderLaunched = false ∧
      (check ⟨true, RequestOutcome.success (some ⟨[]⟩), tok, now, fe⟩ r u).processedFile = false := by
  intro r u now tok fe
  have hc : check ⟨true, RequestOutcome.success (some ⟨[]⟩), tok, now, fe⟩ r u =
      ⟨true, true, [r], false, none, false, false, none⟩ := rfl
  refine ⟨?_, by rw [hc], by rw [hc], by rw [hc]⟩
  simp [timeToNextPoll, hc, sumSleeps, two_mul]

/-- Scheduler derivation: from the empty future list, with a 5-channel
list, the drain guard is already false (0 entries, at most 4), so the
first iteration submits the whole batch of 5. -/
theorem sched_reach_five : SchedReach 5 ⟨5, 0, 0⟩ :=
  SchedReach.step SchedReach.init (SchedStep.submit 0 0 0 (by decide))

/-- C8 (counterexample): with a channel list of 5 names the very first
batch puts 5 units in flight at once — above the worker cap of 4. The
drain loop bounds the future list before a submission, not after it. -/
theorem five_channels_exceed_worker_cap :
    SchedReach 5 ⟨5, 0, 0⟩ ∧ numWorkers < inFlight ⟨5, 0, 0⟩ :=
  ⟨sched_reach_five, by decide⟩

/-- C8 (amended): in the multi-target scheduler with a channel list of
size `k`, at most `numWorkers` units ever execute concurrently (the
pool cap), and the number of in-flight (submitted, incomplete) units
never exceeds `numWorkers + k`: a batch is submitted only once the
future list is down to at most `numWorkers` entries, and each batch adds
one unit per channel. The worker cap alone does not bound the in-flight
count. -/
theorem sched_inflight_bounded :
    ∀ (k : Nat) (s : SchedState), SchedReach k s →
      inFlight s ≤ numWorkers + k ∧ s.running ≤ numWorkers := by
  intro k s h
  induction h with
  | init => exact ⟨by simp [inFlight, numWorkers], by simp [numWorkers]⟩
  | step hr hs ih =>
      cases hs with
      | start q r d hq hrw =>
          simp only [inFlight, numWorkers] at ih hrw ⊢
          omega
      | complete q r d hrp =>
          simp only [inFlight, numWorkers] at ih ⊢
          omega
      | drain q r d h1 h2 =>
          simp only [inFlight, numWorkers] at ih ⊢
          omega
      | submit q r d hle =>
          simp only [inFlight, numWorkers] at ih hle ⊢
          omega

/-- Witness for `sched_inflight_bounded` at the reachable 5-channel
state. -/
theorem sched_inflight_bounded_witness :
    inFlight ⟨5, 0, 0⟩ ≤ numWorkers + 5 ∧ SchedState.running ⟨5, 0, 0⟩ ≤ numWorkers :=
  sched_inflight_bounded 5 ⟨5, 0, 0⟩ sched_reach_five

/-- C9: `run` raises a refresh below 15 to exactly 15 before any polling
begins, leaves other values unchanged, and with the adjusted interval
every loop cycle waits at least 15 seconds before the next poll,
whatever the poll outcome. -/
theorem run_enforces_min_poll_interval :
    ∀ (refresh : Nat),
      (refresh < 15 → run_poll_interval refresh = 15) ∧
      (15 ≤ refresh → run_poll_interval refresh = refresh) ∧
      15 ≤ run_poll_interval refresh ∧
      (∀ (env : CheckEnv) (u : String),
        15 ≤ timeToNextPoll env (run_poll_interval refresh) u) := by
  intro refresh
  have h15 : 15 ≤ run_poll_interval refresh := by
    unfold run_poll_interval; split <;> omega
  refine ⟨fun h => if_pos h, fun h => if_neg (by omega), h15, fun env u => ?_⟩
  unfold timeToNextPoll
  omega

/-- Witness for `run_enforces_min_poll_interval`: a configured interval
of 5 is raised to 15. -/
theorem run_enforces_min_poll_interval_witness : run_poll_interval 5 = 15 :=
  (run_enforces_min_poll_interval 5).1 (by decide)

/-- C10: a line whose right-stripped content has length at most one
never appears among the loaded usernames, so a single-character
username in the channel list is never scheduled. -/
theorem short_lines_never_scheduled :
    ∀ (lines : List String) (u : String), u.length ≤ 1 → u ∉ load_usernames lines := by
  intro lines u hlen hmem
  unfold load_usernames at hmem
  rw [List.mem_filter] at hmem
  have h2 := hmem.2
  simp at h2
  omega

/-- Witness for `short_lines_never_scheduled`: the one-letter line "a"
of a concrete channel list is not scheduled. -/
theorem short_lines_never_scheduled_witness :
    "a" ∉ load_usernames [("a\n"), ("bob\n")] :=
  short_lines_never_scheduled [("a\n"), ("bob\n")] ("a") (by decide)
